import Mathlib

/-!
Shallow embedding of the call-session / SDP / keepalive / renegotiation layer
of the AudioCodes WebRTC client (src/config.js), with theorems settling the
frozen claims about its specification.
-/

namespace ACWebRTC

/-! ## SDP analysis (class AudioCodesSDP, src/config.js lines 1635-1711) -/

/-- The four direction attribute values recognised by checkSendRecv. -/
inductive SDPDir where
  | sendrecv
  | sendonly
  | recvonly
  | inactive
  deriving DecidableEq, Repr

/-- Executable model of String.startsWith (kernel-reducible form). -/
def strStartsWith (s pre : String) : Bool :=
  pre.data.isPrefixOf s.data

/-- checkSendRecv(line): maps an attribute line to a direction value, else null. -/
def checkSendRecv (line : String) : Option SDPDir :=
  if line.data = "a=sendrecv".data then some .sendrecv
  else if line.data = "a=sendonly".data then some .sendonly
  else if line.data = "a=recvonly".data then some .recvonly
  else if line.data = "a=inactive".data then some .inactive
  else none

/-- The parsed SDP: session-level lines (`start`) and one line block per media
section (`media`), as built by the AudioCodesSDP constructor. -/
structure AudioCodesSDP where
  start : List String
  media : List (List String)
  deriving DecidableEq, Repr

/-- One step of the AudioCodesSDP constructor loop: a line starting with "m="
opens a new media block; other lines go to the current block (session-level
`start` before the first "m=" line, the last media block afterwards). -/
def sdpAddLine (s : AudioCodesSDP) (line : String) : AudioCodesSDP :=
  if strStartsWith line "m=" then ⟨s.start, s.media ++ [[line]]⟩
  else match s.media.reverse with
    | [] => ⟨s.start ++ [line], s.media⟩
    | last :: rest => ⟨s.start, ((last ++ [line]) :: rest).reverse⟩

/-- AudioCodesSDP constructor: split on newlines, trim, drop empty lines,
then distribute lines into the session-level section and media blocks. -/
def parseSDP (sdp : String) : AudioCodesSDP :=
  let lines := ((sdp.splitOn "\n").map String.trim).filter (fun l => l.length > 0)
  lines.foldl sdpAddLine ⟨[], []⟩

/-- getMedia(type): the first media block whose first line starts with "m=" + type. -/
def getMedia (s : AudioCodesSDP) (type : String) : Option (List String) :=
  s.media.find? (fun m =>
    match m with
    | [] => false
    | l :: _ => strStartsWith l ("m=" ++ type))

/-- The scan loops of getMediaDirectionValue: first line for which
checkSendRecv is non-null (the loops break at the first match). -/
def findDirection (lines : List String) : Option SDPDir :=
  lines.findSome? checkSendRecv

/-- getMediaDirectionValue(type): null when no media block of the kind exists;
otherwise default sendrecv, overridden by the session-level attribute if
present, overridden in turn by the media-block attribute if present. -/
def getMediaDirectionValue (s : AudioCodesSDP) (type : String) : Option SDPDir :=
  match getMedia s type with
  | none => none
  | some media =>
    let result := SDPDir.sendrecv
    let result := match findDirection s.start with
      | some t => t
      | none => result
    let result := match findDirection media with
      | some t => t
      | none => result
    some result

/-- getMediaDirection(type, remote): maps the resolved direction value to
(canSend, canReceive, rawDirection) from the analyzing party's perspective. -/
def getMediaDirection (s : AudioCodesSDP) (type : String) (remote : Bool) :
    Bool × Bool × Option SDPDir :=
  match getMediaDirectionValue s type with
  | some .sendrecv => (true, true, some .sendrecv)
  | some .sendonly => if remote then (false, true, some .sendonly) else (true, false, some .sendonly)
  | some .recvonly => if remote then (true, false, some .recvonly) else (false, true, some .recvonly)
  | none => (false, false, none)
  | some .inactive => (false, false, some .inactive)

/-! ## Call session state (class AudioCodesSession, src/config.js lines 1158-1279)
and the "sdp" event handler (AudioCodesUA._sdp_checking, lines 981-1016) -/

/-- The `_video` record of `AudioCodesSession.data`: negotiated send/receive
flags and enabled (policy) send/receive flags. -/
structure VideoFlags where
  send : Bool
  receive : Bool
  enabledSend : Bool
  enabledReceive : Bool
  deriving DecidableEq, Repr

/-- The session state the modelled operations touch: the fields of
`AudioCodesSession.data` (`_initial`, `_wasUsedSendVideo`, `_screenSharing`,
`_video`) together with the hold flags read through
`isLocalHold()`/`isRemoteHold()` (held by the underlying signaling session).
`screenSharing` keeps the `hadSendVideo` field of the `_screenSharing`
record (the track handle itself is external). -/
structure SessionState where
  initial : Bool
  wasUsedSendVideo : Bool
  screenSharing : Option Bool
  video : VideoFlags
  localHold : Bool
  remoteHold : Bool
  deriving DecidableEq, Repr

/-- The `data` initializer of the AudioCodesSession constructor
(src/config.js lines 1161-1175); a fresh call is not on hold. -/
def initialSessionState : SessionState :=
  { initial := true
    wasUsedSendVideo := false
    screenSharing := none
    video := { send := false, receive := false, enabledSend := false, enabledReceive := false }
    localHold := false
    remoteHold := false }

/-- AudioCodesSession._setVideoState(send, receive): overwrite the negotiated
video flags, leaving the enabled flags alone. -/
def setVideoState (v : VideoFlags) (send receive : Bool) : VideoFlags :=
  { v with send := send, receive := receive }

/-- Originator of an "sdp" event (e.originator). -/
inductive Originator where
  | remote
  | local
  deriving DecidableEq, Repr

/-- Type of an "sdp" event (e.type). -/
inductive SdpType where
  | offer
  | answer
  deriving DecidableEq, Repr

/-- AudioCodesUA._sdp_checking(js_session, e): parse the description and get
the video direction; on an answer event clear `_initial`; on a
'remote answer' or 'local answer' event, unless the call is in local or
remote hold, overwrite the negotiated video flags with the parsed direction;
offer events leave the state unchanged. -/
def sdpChecking (st : SessionState) (orig : Originator) (ty : SdpType) (sdp : AudioCodesSDP) :
    SessionState :=
  let dir := getMediaDirection sdp "video" (orig = .remote)
  let send := dir.1
  let recv := dir.2.1
  let st := if ty = .answer then { st with initial := false } else st
  match orig, ty with
  | _, .offer => st
  | _, .answer =>
    if st.localHold || st.remoteHold then st
    else { st with video := setVideoState st.video send recv }

/-- The events that can reach a call session after construction: "sdp"
events (offers and answers, remote and local), and hold-state changes
(JsSIP updates `_localHold`/`_remoteHold` around hold/unhold re-INVITEs). -/
inductive SessionEvent where
  | sdp (orig : Originator) (ty : SdpType) (description : AudioCodesSDP)
  | setLocalHold (b : Bool)
  | setRemoteHold (b : Bool)
  deriving DecidableEq, Repr

/-- One step of the per-call event loop. Only `_sdp_checking` ever writes
`data._initial` (src/config.js line 994; the only other occurrence is the
constructor initializer, line 1165). -/
def sessionStep (st : SessionState) (e : SessionEvent) : SessionState :=
  match e with
  | .sdp orig ty d => sdpChecking st orig ty d
  | .setLocalHold b => { st with localHold := b }
  | .setRemoteHold b => { st with remoteHold := b }

/-- Whether an event is an "sdp" answer event ('remote answer' or 'local answer'). -/
def isAnswerEvent : SessionEvent → Bool
  | .sdp _ .answer _ => true
  | _ => false

/-! ## Renegotiation (AudioCodesSession._doRenegotiate / _renegotiate,
src/config.js lines 1474-1500) -/

/-- Settlement of the `_doRenegotiate` promise: `.error ()` when `reject()`
was called (the call had already ended), `.ok b` when `resolve(b)` won
(true: the completion callback ran; false: `js_session.renegotiate`
returned false, a synchronous rejection by the signaling layer). -/
structure DoRenegResult where
  settled : Except Unit Bool
  renegotiateInvoked : Bool
  deriving Repr

/-- AudioCodesSession._doRenegotiate(options). The executor first calls
`reject()` when `js_session.isEnded()`, but does not return there, so
`js_session.renegotiate(options, ...)` is invoked in every case; a promise
keeps its first settlement, so the later `resolve` is a no-op in the ended
case. `accepted` abstracts whether the signaling layer accepts this attempt
(renegotiate returns true and eventually runs the completion callback). -/
def doRenegotiate (ended accepted : Bool) : DoRenegResult :=
  let firstSettlement : Option (Except Unit Bool) :=
    if ended then some (.error ()) else none
  let settled := match firstSettlement with
    | some r => r
    | none => if accepted then .ok true else .ok false
  { settled := settled, renegotiateInvoked := true }

/-- Outcome of `_renegotiate`. -/
inductive RenegOutcome where
  | success
  | exhausted
  | terminated
  deriving DecidableEq, Repr

/-- Trace of one `_renegotiate` run: final outcome, number of
`_doRenegotiate` attempts performed, and the list of delays awaited
(one entry per `setTimeout(resolve, delay)` wait, in order). -/
structure RenegTrace where
  outcome : RenegOutcome
  attempts : Nat
  waits : List Nat
  deriving DecidableEq, Repr

/-- The while-loop of AudioCodesSession._renegotiate, entered with counter
`i`: run `_doRenegotiate` (attempt i, with `accept i` the signaling layer's
behaviour for that attempt); a rejected promise propagates out of the await
as the terminated failure; `true` returns success; on `false` increment the
counter, exit exhausted when it reaches `repeatLimit` (no delay after the
last attempt), otherwise await `delay` milliseconds and loop. -/
def renegotiateLoop (ended : Bool) (accept : Nat → Bool) (repeatLimit delay : Nat)
    (i : Nat) : RenegTrace :=
  match (doRenegotiate ended (accept i)).settled with
  | .error _ => { outcome := .terminated, attempts := 1, waits := [] }
  | .ok true => { outcome := .success, attempts := 1, waits := [] }
  | .ok false =>
    if h : repeatLimit ≤ i + 1 then
      { outcome := .exhausted, attempts := 1, waits := [] }
    else
      let rest := renegotiateLoop ended accept repeatLimit delay (i + 1)
      { outcome := rest.outcome, attempts := rest.attempts + 1, waits := delay :: rest.waits }
termination_by repeatLimit - i
decreasing_by omega

/-- The destructuring defaults of `_renegotiate({ repeat = 30, delay = 500, ... })`. -/
def defaultRepeat : Nat := 30

/-- The destructuring default of the retry delay, in milliseconds. -/
def defaultDelay : Nat := 500

/-- AudioCodesSession._renegotiate: apply the destructuring defaults and run
the retry loop from counter 0. -/
def renegotiate (ended : Bool) (accept : Nat → Bool)
    (repeatOpt delayOpt : Option Nat) : RenegTrace :=
  renegotiateLoop ended accept (repeatOpt.getD defaultRepeat) (delayOpt.getD defaultDelay) 0

/-! ## Video and screen-share operations (AudioCodesSession.startSendingVideo
/ stopSendingVideo / startScreenSharing / _onEndedScreenSharing,
src/config.js lines 1419-1577) -/

/-- Media-engine and local-stream operations performed by the session, in
the order they are issued. `addVideo` is the wrapper call that creates a new
sender via connection.addTrack or reuses the existing one via
sender.replaceTrack (depending on the transceiver state and the
wasUsedSendVideo flag); `replaceSenderTrack` always reuses an existing
sender and never creates one. -/
inductive MediaOp where
  | getUserMedia
  | localAddTrack
  | addVideo
  | removeVideo
  | replaceSenderTrack
  | getDisplayMedia
  | renegotiateReq
  deriving DecidableEq, Repr

/-- The errors the modelled session operations can surface. -/
inductive CallError where
  | alreadyStarted
  | alreadyStopped
  | mediaError
  | addVideoError
  | removeVideoError
  | renegotiationFailed
  | terminated
  | screenShareUnsupported
  | nullScreenShare
  deriving DecidableEq, Repr

/-- The external collaborators of the session operations: media-engine
outcomes, whether the underlying signaling session has ended, and the
signaling layer's acceptance of successive renegotiation attempts. -/
structure MediaEnv where
  gumOk : Bool
  hasDisplayMedia : Bool
  getDisplayOk : Bool
  addVideoOk : Bool
  removeVideoOk : Bool
  ended : Bool
  accept : Nat → Bool

/-- Result of a session operation: the state it leaves behind, the media
operations it issued in order, and the error it surfaced, if any. -/
structure CallResult where
  state : SessionState
  ops : List MediaOp
  error : Option CallError

/-- An `await this._renegotiate(...)` call with default repeat/delay: the
operations it issues and the error it surfaces. -/
def renegotiateCall (env : MediaEnv) : List MediaOp × Option CallError :=
  let tr := renegotiate env.ended env.accept none none
  ([.renegotiateReq],
    match tr.outcome with
    | .success => none
    | .exhausted => some .renegotiationFailed
    | .terminated => some .terminated)

/-- AudioCodesSession.startSendingVideo(options): fail at once when sending
video is already enabled; acquire the camera (propagating failure with no
state change); add the track to the local stream; set the enabled flags;
add or replace the outgoing video via the wrapper (propagating failure);
renegotiate. -/
def startSendingVideo (env : MediaEnv) (st : SessionState) (enabledReceiveVideo : Bool) :
    CallResult :=
  if st.video.enabledSend then
    { state := st, ops := [], error := some .alreadyStarted }
  else if !env.gumOk then
    { state := st, ops := [.getUserMedia], error := some .mediaError }
  else
    let st1 := { st with video :=
      { st.video with enabledSend := true, enabledReceive := enabledReceiveVideo } }
    if !env.addVideoOk then
      { state := st1, ops := [.getUserMedia, .localAddTrack, .addVideo],
        error := some .addVideoError }
    else
      let r := renegotiateCall env
      { state := st1, ops := [.getUserMedia, .localAddTrack, .addVideo] ++ r.1, error := r.2 }

/-- AudioCodesSession.stopSendingVideo(options): fail at once when sending
video is not enabled; remove the outgoing video via the wrapper
(propagating failure with no state change); clear the enabled-send flag,
mark `_wasUsedSendVideo`; renegotiate. -/
def stopSendingVideo (env : MediaEnv) (st : SessionState) : CallResult :=
  if !st.video.enabledSend then
    { state := st, ops := [], error := some .alreadyStopped }
  else if !env.removeVideoOk then
    { state := st, ops := [.removeVideo], error := some .removeVideoError }
  else
    let st1 := { st with
      video := { st.video with enabledSend := false }, wasUsedSendVideo := true }
    let r := renegotiateCall env
    { state := st1, ops := [.removeVideo] ++ r.1, error := r.2 }

/-- AudioCodesSession.startScreenSharing(): fail when the browser cannot
capture a display or acquisition fails; record `_screenSharing` with
`hadSendVideo := hasSendVideo()` (the negotiated send flag before sharing);
add or replace the outgoing video via the wrapper (clearing the record on
failure); set enabled-send; renegotiate with the screen-sharing marker
header. -/
def startScreenSharing (env : MediaEnv) (st : SessionState) : CallResult :=
  if !env.hasDisplayMedia then
    { state := st, ops := [], error := some .screenShareUnsupported }
  else if !env.getDisplayOk then
    { state := st, ops := [.getDisplayMedia], error := some .mediaError }
  else
    let st1 := { st with screenSharing := some st.video.send }
    if !env.addVideoOk then
      { state := { st1 with screenSharing := none },
        ops := [.getDisplayMedia, .addVideo], error := some .addVideoError }
    else
      let st2 := { st1 with video := { st1.video with enabledSend := true } }
      let r := renegotiateCall env
      { state := st2, ops := [.getDisplayMedia, .addVideo] ++ r.1, error := r.2 }

/-- AudioCodesSession._onEndedScreenSharing(): clear `_screenSharing`; do
nothing when the call has terminated; when video was being sent before
sharing started, restore the camera track on the existing video sender via
replaceSenderTrack and renegotiate (with the screen-sharing-off marker);
otherwise fall through to stopSendingVideo. (When `_screenSharing` is null
the source would fault reading `hadSendVideo`; the handler only fires while
it is set.) -/
def onEndedScreenSharing (env : MediaEnv) (st : SessionState) : CallResult :=
  let screenSharing := st.screenSharing
  let st := { st with screenSharing := none }
  if env.ended then
    { state := st, ops := [], error := none }
  else
    match screenSharing with
    | none => { state := st, ops := [], error := some .nullScreenShare }
    | some hadSendVideo =>
      if hadSendVideo then
        let r := renegotiateCall env
        { state := st, ops := [.replaceSenderTrack] ++ r.1, error := r.2 }
      else
        stopSendingVideo env st

/-! ## WebSocket keepalive monitor (AudioCodesUA, src/config.js lines
165-175, 474-482, 492-592) -/

/-- The keepalive fields of AudioCodesUA. Timer handles are modelled as
booleans (scheduled or null); `socketClosed` records whether
`wsSocket.close()` has been called by the monitor. Times and delays are in
milliseconds. -/
structure KeepAlive where
  wsPingMs : Nat
  wsPongMs : Nat
  wsWasPong : Bool
  wsPingTask : Bool
  wsPongTask : Bool
  socketClosed : Bool
  wsPongStats : Nat
  wsPongStatNum : Nat
  wsPongStatTime : Nat
  wsPongStatDelayMin : Nat
  wsPongStatDelayMax : Nat
  wsPongStatDist : Option (List Nat)
  deriving DecidableEq, Repr

/-- The keepalive fields of the AudioCodesUA constructor (lines 165-175). -/
def initKeepAlive : KeepAlive :=
  { wsPingMs := 0
    wsPongMs := 0
    wsWasPong := false
    wsPingTask := false
    wsPongTask := false
    socketClosed := false
    wsPongStats := 0
    wsPongStatNum := 0
    wsPongStatTime := 0
    wsPongStatDelayMin := 1000000
    wsPongStatDelayMax := 0
    wsPongStatDist := none }

/-- AudioCodesUA.setWebSocketKeepAlive(pingSeconds, pongSeconds, pongStats,
pongDist): intervals converted to milliseconds; when pongDist is set, the
distribution array is created with pongSeconds * 4 zeroed buckets. -/
def setWebSocketKeepAlive (s : KeepAlive) (pingSeconds pongSeconds pongStats : Nat)
    (pongDist : Bool) : KeepAlive :=
  { s with
      wsPingMs := pingSeconds * 1000
      wsPongMs := pongSeconds * 1000
      wsPongStats := pongStats
      wsPongStatDist :=
        if pongDist then some (List.replicate (pongSeconds * 4) 0) else s.wsPongStatDist }

/-- AudioCodesUA._stopWsKeepAlive(): cancel the ping interval and pending
pong timeout. -/
def stopWsKeepAlive (s : KeepAlive) : KeepAlive :=
  { s with wsPingTask := false, wsPongTask := false }

/-- AudioCodesUA._onPongTimeout(): the pong-wait timer fired. If no pong was
ever observed on this transport, disable pong-timeout checking from now on
(wsPongMs set to 0) and return without touching the socket or the ping
interval; otherwise cancel all keepalive timers and close the socket. -/
def onPongTimeout (s : KeepAlive) : KeepAlive :=
  let s := { s with wsPongTask := false }
  if !s.wsWasPong then
    { s with wsPongMs := 0 }
  else
    { stopWsKeepAlive s with socketClosed := true }

/-- The histogram bucket index of _onPong: floor(delay / 250), clamped to
the last bucket. -/
def histBucket (len delay : Nat) : Nat :=
  let n := delay / 250
  if n ≥ len then len - 1 else n

/-- The `wsPongStatDist[n]++` update of _onPong. -/
def bumpBucket (dist : List Nat) (delay : Nat) : List Nat :=
  let n := histBucket dist.length delay
  dist.set n (dist.getD n 0 + 1)

/-- AudioCodesUA._onPong(), at wall-clock time `now`: ignore when pong
checking is disabled; otherwise cancel the pending pong timeout, note that
the server supports pongs, and when statistics are enabled record the
latency since the probe was sent into the running min/max and (when present)
the distribution, emitting a report and resetting the counters once the
configured sample count is reached. -/
def onPong (s : KeepAlive) (now : Nat) : KeepAlive :=
  if s.wsPongMs = 0 then s
  else
    let s := { s with wsPongTask := false }
    let s := if !s.wsWasPong then { s with wsWasPong := true } else s
    if s.wsPongStats > 0 then
      let delay := now - s.wsPongStatTime
      let s := if delay < s.wsPongStatDelayMin then { s with wsPongStatDelayMin := delay } else s
      let s := if delay > s.wsPongStatDelayMax then { s with wsPongStatDelayMax := delay } else s
      let s := match s.wsPongStatDist with
        | none => s
        | some dist => { s with wsPongStatDist := some (bumpBucket dist delay) }
      let s := { s with wsPongStatNum := s.wsPongStatNum + 1 }
      if s.wsPongStatNum = s.wsPongStats then
        { s with
            wsPongStatNum := 0
            wsPongStatDelayMin := 1000000
            wsPongStatDelayMax := 0
            wsPongStatDist := s.wsPongStatDist.map (fun d => List.replicate d.length 0) }
      else s
    else s

/-- One firing of the setInterval body installed by _startWsKeepAlive, at
wall-clock time `now` with the websocket open or not: when a pong timeout is
configured and no pong-wait timer is pending, note the probe send time (when
statistics are enabled) and arm the pong-wait timer; then send the probe if
the socket is open. Returns the new state and whether a probe was sent. -/
def pingTick (s : KeepAlive) (now : Nat) (socketIsOpen : Bool) : KeepAlive × Bool :=
  let s :=
    if s.wsPongMs > 0 && !s.wsPongTask then
      let s := if s.wsPongStats > 0 then { s with wsPongStatTime := now } else s
      { s with wsPongTask := true }
    else s
  (s, socketIsOpen)

end ACWebRTC

namespace ACWebRTC

/-- C5: the direction-to-flags mapping of getMediaDirection, from the
analyzing party's perspective: sendrecv gives (true,true); sendonly gives
(false,true) for remote and (true,false) for local; recvonly gives
(true,false) for remote and (false,true) for local; inactive or an absent
media block gives (false,false). In particular a description with
session-level sendrecv and a video block containing sendonly, analyzed with
remote = true, yields (canSend = false, canReceive = true). -/
theorem c5_direction_mapping (s : AudioCodesSDP) (ty : String) (remote : Bool) :
    (getMediaDirectionValue s ty = some .sendrecv →
      getMediaDirection s ty remote = (true, true, some .sendrecv)) ∧
    (getMediaDirectionValue s ty = some .sendonly →
      getMediaDirection s ty remote =
        (if remote then (false, true, some .sendonly) else (true, false, some .sendonly))) ∧
    (getMediaDirectionValue s ty = some .recvonly →
      getMediaDirection s ty remote =
        (if remote then (true, false, some .recvonly) else (false, true, some .recvonly))) ∧
    (getMediaDirectionValue s ty = some .inactive →
      getMediaDirection s ty remote = (false, false, some .inactive)) ∧
    (getMediaDirectionValue s ty = none →
      getMediaDirection s ty remote = (false, false, none)) ∧
    ((getMediaDirection ⟨["v=0", "a=sendrecv"], [["m=audio 5004 RTP/AVP 0"], ["m=video 5006 RTP/AVP 96", "a=sendonly"]]⟩ "video" true).1 = false ∧
     (getMediaDirection ⟨["v=0", "a=sendrecv"], [["m=audio 5004 RTP/AVP 0"], ["m=video 5006 RTP/AVP 96", "a=sendonly"]]⟩ "video" true).2.1 = true) := by
  refine ⟨?_, ?_, ?_, ?_, ?_, ?_⟩ <;>
    first
      | (intro h; simp [getMediaDirection, h])
      | decide

/-- Witness for c5_direction_mapping at a concrete description. -/
theorem c5_direction_mapping_witness :
    getMediaDirectionValue ⟨["a=sendrecv"], [["m=video 0", "a=sendonly"]]⟩ "video" = some .sendonly ∧
    getMediaDirection ⟨["a=sendrecv"], [["m=video 0", "a=sendonly"]]⟩ "video" true =
      (if true then (false, true, some .sendonly) else (true, false, some .sendonly)) := by
  refine ⟨by decide, ?_⟩
  exact (c5_direction_mapping ⟨["a=sendrecv"], [["m=video 0", "a=sendonly"]]⟩ "video" true).2.1
    (by decide)

/-- C6: when a media block of the requested kind exists, a direction
attribute inside the media block overrides any session-level value, and when
neither section contains a direction attribute the resolved direction
defaults to sendrecv. -/
theorem c6_media_overrides_session (s : AudioCodesSDP) (ty : String) (m : List String)
    (hm : getMedia s ty = some m) :
    (∀ d : SDPDir, findDirection m = some d → getMediaDirectionValue s ty = some d) ∧
    (findDirection m = none → findDirection s.start = none →
      getMediaDirectionValue s ty = some .sendrecv) := by
  constructor
  · intro d hd
    simp [getMediaDirectionValue, hm, hd]
  · intro h1 h2
    simp [getMediaDirectionValue, hm, h1, h2]

/-- Witness for c6_media_overrides_session at a concrete description. -/
theorem c6_media_overrides_session_witness :
    getMediaDirectionValue ⟨["a=recvonly"], [["m=video 0", "a=inactive"]]⟩ "video"
      = some .inactive := by
  exact (c6_media_overrides_session ⟨["a=recvonly"], [["m=video 0", "a=inactive"]]⟩
    "video" ["m=video 0", "a=inactive"] (by decide)).1 .inactive (by decide)

/-- C1: on an "sdp" event, `_sdp_checking` overwrites the negotiated video
flags only for answer events arriving with neither local-hold nor
remote-hold set; every offer event, and every answer event arriving while
local-hold or remote-hold is set, leaves `_video`'s negotiated flags (and
the whole `_video` record) unchanged. -/
theorem c1_negotiated_video_hold_guard (st : SessionState) (orig : Originator)
    (ty : SdpType) (d : AudioCodesSDP) :
    (ty = .offer → (sdpChecking st orig ty d).video = st.video) ∧
    (ty = .answer → (st.localHold || st.remoteHold) = true →
      (sdpChecking st orig ty d).video = st.video) ∧
    (ty = .answer → (st.localHold || st.remoteHold) = false →
      (sdpChecking st orig ty d).video =
        setVideoState st.video (getMediaDirection d "video" (orig = .remote)).1
          (getMediaDirection d "video" (orig = .remote)).2.1) := by
  refine ⟨fun h => ?_, fun h hh => ?_, fun h hh => ?_⟩
  · subst h; cases orig <;> simp [sdpChecking]
  · subst h; cases orig <;> simp [sdpChecking, hh]
  · subst h; cases orig <;> simp [sdpChecking, hh]

/-- Witness for c1_negotiated_video_hold_guard: a local answer with an
inactive video line, arriving while local-hold is set, leaves the
negotiated video flags untouched. -/
theorem c1_negotiated_video_hold_guard_witness :
    (sdpChecking
        { initialSessionState with
            video := ⟨true, true, false, false⟩, localHold := true }
        .local .answer ⟨[], [["m=video 0", "a=inactive"]]⟩).video
      = ⟨true, true, false, false⟩ := by
  exact (c1_negotiated_video_hold_guard
    { initialSessionState with video := ⟨true, true, false, false⟩, localHold := true }
    .local .answer ⟨[], [["m=video 0", "a=inactive"]]⟩).2.1 rfl (by decide)

/-- C7: `data._initial` starts true (constructor initializer) and after any
session event equals the old value and-ed with "the event is not an answer":
it is cleared exactly by answer events, left unchanged by offers, hold
changes and every other event, and never set back to true. Hence along any
event trace it transitions true to false exactly once, at the first answer
event, and never reverts. -/
theorem c7_initial_cleared_once_on_answer :
    initialSessionState.initial = true ∧
    ∀ (st : SessionState) (e : SessionEvent),
      (sessionStep st e).initial = (st.initial && !isAnswerEvent e) := by
  refine ⟨rfl, fun st e => ?_⟩
  cases e with
  | sdp orig ty d =>
    cases ty <;> cases orig <;>
      simp [sessionStep, sdpChecking, isAnswerEvent, setVideoState] <;> split <;> rfl
  | setLocalHold b => simp [sessionStep, isAnswerEvent]
  | setRemoteHold b => simp [sessionStep, isAnswerEvent]

/-- Helper: from any counter i < N, with the signaling layer rejecting every
attempt synchronously on a live call, the retry loop performs N - i attempts
with a delay between consecutive attempts (none after the last) and is
exhausted. -/
theorem renegotiateLoop_all_rejected (d N : Nat) :
    ∀ (f i : Nat), N - i ≤ f → i < N →
      renegotiateLoop false (fun _ => false) N d i =
        { outcome := .exhausted, attempts := N - i, waits := List.replicate (N - i - 1) d } := by
  intro f
  induction f with
  | zero => intro i h1 h2; omega
  | succ f ih =>
    intro i h1 h2
    rw [renegotiateLoop]
    simp only [doRenegotiate]
    by_cases hc : N ≤ i + 1
    · have hNi : N - i = 1 := by omega
      simp [hc, hNi]
    · have hrest := ih (i + 1) (by omega) (by omega)
      simp only [hc]
      simp [hrest]
      constructor
      · omega
      · have : N - i - 1 = (N - (i + 1) - 1) + 1 := by omega
        rw [this, List.replicate_succ]

/-- C3: with the signaling layer rejecting every attempt synchronously on a
live call, `_renegotiate` with repeat limit N (N at least 1) performs exactly
N attempts, awaits the configured delay between consecutive attempts and not
after the last one, and terminates exhausted ('Renegotiation failed.
Terminated'); the destructuring defaults are repeat = 30 and delay = 500 ms. -/
theorem c3_renegotiation_exhaustion (N d : Nat) (h : 1 ≤ N) :
    renegotiateLoop false (fun _ => false) N d 0 =
      { outcome := .exhausted, attempts := N, waits := List.replicate (N - 1) d } ∧
    (∀ ended accept, renegotiate ended accept none none = renegotiateLoop ended accept 30 500 0) ∧
    defaultRepeat = 30 ∧ defaultDelay = 500 := by
  refine ⟨?_, fun _ _ => rfl, rfl, rfl⟩
  have hk := renegotiateLoop_all_rejected d N N 0 (by omega) (by omega)
  simpa using hk

/-- Witness for c3_renegotiation_exhaustion at the spec's example: repeat
limit 3 gives exactly 3 attempts with 2 delays of 500 ms, then exhaustion. -/
theorem c3_renegotiation_exhaustion_witness :
    renegotiateLoop false (fun _ => false) 3 500 0 =
      { outcome := .exhausted, attempts := 3, waits := List.replicate 2 500 } :=
  (c3_renegotiation_exhaustion 3 500 (by decide)).1

/-- C8 (amended): when the call has already terminated, `_renegotiate` fails
immediately on the first attempt — the `_doRenegotiate` promise is rejected
at once, no retry delay is awaited and no further attempt is made — but,
since the executor does not return after `reject()`, the
`js_session.renegotiate` request is nonetheless still issued to the
signaling layer for that attempt (its completion can no longer settle the
already-rejected promise). -/
theorem c8_terminated_immediate_failure (accept : Nat → Bool)
    (repeatOpt delayOpt : Option Nat) :
    renegotiate true accept repeatOpt delayOpt =
      { outcome := .terminated, attempts := 1, waits := [] } ∧
    ∀ b : Bool, (doRenegotiate true b).renegotiateInvoked = true := by
  constructor
  · rw [renegotiate, renegotiateLoop]
    simp [doRenegotiate]
  · intro b; rfl

/-- Counterexample to C8 as stated: with the call already ended, the model
of `_doRenegotiate` still invokes `js_session.renegotiate` (the source calls
`reject()` without returning), so an offer/answer exchange is requested from
the signaling layer for that attempt, contrary to the claim. -/
theorem c8_counterexample_renegotiate_still_invoked :
    (doRenegotiate true false).renegotiateInvoked = true := rfl

/-- C2: when the pong-wait timer fires and no pong was ever observed on this
transport, `_onPongTimeout` sets the pong timeout to 0 (disabling pong
checking from then on) without closing the socket or touching the ping
interval, and subsequent interval ticks still send probes while arming no
new pong timer; when a pong had previously been observed, it cancels both
keepalive timers and closes the socket. -/
theorem c2_pong_timeout_policy (s : KeepAlive) :
    (s.wsWasPong = false →
      onPongTimeout s = { s with wsPongTask := false, wsPongMs := 0 } ∧
      (onPongTimeout s).socketClosed = s.socketClosed ∧
      (onPongTimeout s).wsPingTask = s.wsPingTask ∧
      ∀ (now : Nat) (socketIsOpen : Bool),
        pingTick (onPongTimeout s) now socketIsOpen = (onPongTimeout s, socketIsOpen)) ∧
    (s.wsWasPong = true →
      (onPongTimeout s).socketClosed = true ∧
      (onPongTimeout s).wsPingTask = false ∧
      (onPongTimeout s).wsPongTask = false) := by
  constructor
  · intro h
    refine ⟨by simp [onPongTimeout, h], by simp [onPongTimeout, h], by simp [onPongTimeout, h],
      fun now socketIsOpen => by simp [onPongTimeout, h, pingTick]⟩
  · intro h
    refine ⟨by simp [onPongTimeout, h, stopWsKeepAlive], by simp [onPongTimeout, h, stopWsKeepAlive],
      by simp [onPongTimeout, h, stopWsKeepAlive]⟩

/-- Witness for c2_pong_timeout_policy: with ping 1000 ms and pong timeout
500 ms, a first timeout with no pong ever observed zeroes the pong timeout
and leaves the socket open; the same timeout after a pong was observed
closes the socket. -/
theorem c2_pong_timeout_policy_witness :
    (onPongTimeout { initKeepAlive with
        wsPingMs := 1000, wsPongMs := 500, wsPingTask := true, wsPongTask := true }).wsPongMs = 0 ∧
    (onPongTimeout { initKeepAlive with
        wsPingMs := 1000, wsPongMs := 500, wsPingTask := true, wsPongTask := true }).socketClosed
      = false ∧
    (onPongTimeout { initKeepAlive with
        wsPingMs := 1000, wsPongMs := 500, wsPingTask := true, wsPongTask := true }).wsPingTask
      = true ∧
    (onPongTimeout { initKeepAlive with
        wsPingMs := 1000, wsPongMs := 500, wsWasPong := true, wsPingTask := true, wsPongTask := true }).socketClosed = true := by
  have h1 := (c2_pong_timeout_policy { initKeepAlive with
      wsPingMs := 1000, wsPongMs := 500, wsPingTask := true, wsPongTask := true }).1 rfl
  have h2 := (c2_pong_timeout_policy { initKeepAlive with
      wsPingMs := 1000, wsPongMs := 500, wsWasPong := true, wsPingTask := true, wsPongTask := true }).2 rfl
  refine ⟨?_, h1.2.1, h1.2.2.1, h2.1⟩
  rw [h1.1]

/-- Helper: the clamped bucket index is the minimum of floor(delay / 250)
and the last bucket index, for a non-empty distribution array. -/
theorem histBucket_eq_min (len delay : Nat) (_h : len ≠ 0) :
    histBucket len delay = min (delay / 250) (len - 1) := by
  unfold histBucket
  by_cases hge : delay / 250 ≥ len
  · simp only [hge, if_true, ite_true]
    omega
  · simp only [hge, if_false, ite_false]
    omega

/-- C10 (amended): when pong statistics with the distribution option are
enabled, the latency histogram is fixed-width with 250 ms (quarter-second)
buckets — pongSeconds * 4 of them, spanning the pong-timeout duration — so a
pong observed with delay d is counted in bucket min(floor(d / 250),
lastBucket); the running min and max are aggregated alongside (shown for an
observation that does not complete a report cycle). -/
theorem c10_pong_latency_stats (s : KeepAlive) (d now pingS pongS stN : Nat) (l : List Nat)
    (hp : s.wsPongMs ≠ 0) (hs : 0 < s.wsPongStats) (hd : s.wsPongStatDist = some l)
    (hl : l ≠ []) (ht : now = s.wsPongStatTime + d)
    (hn : s.wsPongStatNum + 1 ≠ s.wsPongStats) :
    (onPong s now).wsPongStatDist
      = some (l.set (min (d / 250) (l.length - 1))
          (l.getD (min (d / 250) (l.length - 1)) 0 + 1)) ∧
    (onPong s now).wsPongStatDelayMin
      = (if d < s.wsPongStatDelayMin then d else s.wsPongStatDelayMin) ∧
    (onPong s now).wsPongStatDelayMax
      = (if d > s.wsPongStatDelayMax then d else s.wsPongStatDelayMax) ∧
    (setWebSocketKeepAlive s pingS pongS stN true).wsPongStatDist
      = some (List.replicate (pongS * 4) 0) := by
  have hb : histBucket l.length d = min (d / 250) (l.length - 1) :=
    histBucket_eq_min l.length d (by simpa using hl)
  subst ht
  by_cases h1 : d < s.wsPongStatDelayMin <;>
    by_cases h2 : s.wsPongStatDelayMax < d <;>
      cases hw : s.wsWasPong <;>
        simp [onPong, hp, hs, hd, hn, hw, h1, h2, bumpBucket, hb, setWebSocketKeepAlive,
          Nat.add_sub_cancel_left]

/-- Witness for c10_pong_latency_stats: keepalive configured with ping 1 s,
pong timeout 2 s, report every 10 pongs, distribution on; a probe at time 0
followed by a pong at time 300 counts the pong in the 250-500 ms bucket and
sets running min and max to 300. -/
theorem c10_pong_latency_stats_witness :
    (onPong (pingTick (setWebSocketKeepAlive initKeepAlive 1 2 10 true) 0 true).1
        300).wsPongStatDist = some [0, 1, 0, 0, 0, 0, 0, 0] ∧
    (onPong (pingTick (setWebSocketKeepAlive initKeepAlive 1 2 10 true) 0 true).1
        300).wsPongStatDelayMin = 300 ∧
    (onPong (pingTick (setWebSocketKeepAlive initKeepAlive 1 2 10 true) 0 true).1
        300).wsPongStatDelayMax = 300 := by
  have h := c10_pong_latency_stats
    (pingTick (setWebSocketKeepAlive initKeepAlive 1 2 10 true) 0 true).1
    300 300 1 2 10 (List.replicate 8 0)
    (by decide) (by decide) (by decide) (by decide) (by decide) (by decide)
  refine ⟨?_, ?_, ?_⟩
  · rw [h.1]; decide
  · rw [h.2.1]; decide
  · rw [h.2.2.1]; decide

/-- Counterexample to C10 as stated: with a pong timeout of 2000 ms the
claim's bucketing (width T/4 = 500 ms) would count a 300 ms pong in bucket
0, but _onPong counts it in bucket 1 (the code buckets at a fixed 250 ms,
a quarter of a second, regardless of the pong timeout). -/
theorem c10_counterexample_bucket_width :
    (onPong (pingTick (setWebSocketKeepAlive initKeepAlive 1 2 10 true) 0 true).1
        300).wsPongStatDist = some [0, 1, 0, 0, 0, 0, 0, 0] ∧
    (setWebSocketKeepAlive initKeepAlive 1 2 10 true).wsPongMs = 2000 ∧
    (300 : Nat) / (2000 / 4) = 0 := by
  refine ⟨by decide, by decide, by decide⟩

/-- C9: startSendingVideo called while sending video is already enabled
fails at once with the already-started error, before any media acquisition,
renegotiation or state mutation (no operations issued, state returned
unchanged, enabled-send still true); stopSendingVideo called while sending
video is not enabled fails at once with the already-stopped error, likewise
issuing no operation and leaving the state unchanged with enabled-send
false. -/
theorem c9_already_active_guards (env : MediaEnv) (st : SessionState) (erv : Bool) :
    (st.video.enabledSend = true →
      startSendingVideo env st erv =
        { state := st, ops := [], error := some .alreadyStarted }) ∧
    (st.video.enabledSend = false →
      stopSendingVideo env st =
        { state := st, ops := [], error := some .alreadyStopped }) := by
  constructor
  · intro h
    simp [startSendingVideo, h]
  · intro h
    simp [stopSendingVideo, h]

/-- Witness for c9_already_active_guards: a second startSendingVideo fails
with the already-started error leaving enabled-send true, and a
stopSendingVideo on a fresh audio call fails with the already-stopped
error. -/
theorem c9_already_active_guards_witness :
    startSendingVideo ⟨true, true, true, true, true, false, fun _ => true⟩
        { initialSessionState with video := ⟨false, false, true, false⟩ } true
      = { state := { initialSessionState with video := ⟨false, false, true, false⟩ },
          ops := [], error := some .alreadyStarted } ∧
    stopSendingVideo ⟨true, true, true, true, true, false, fun _ => true⟩ initialSessionState
      = { state := initialSessionState, ops := [], error := some .alreadyStopped } :=
  ⟨(c9_already_active_guards ⟨true, true, true, true, true, false, fun _ => true⟩
      { initialSessionState with video := ⟨false, false, true, false⟩ } true).1 rfl,
   (c9_already_active_guards ⟨true, true, true, true, true, false, fun _ => true⟩
      initialSessionState true).2 rfl⟩

/-- C4: on the screen-sharing track's end-of-capture signal with the call
not terminated: when video was being sent before sharing started
(`hadSendVideo` recorded true), the camera track is restored on the
existing video sender via replaceSenderTrack — never via the
sender-creating addVideo path — followed by one renegotiation request, and
enabled-send stays true; when no video was being sent before, the cleanup
is exactly the stopSendingVideo path. -/
theorem c4_screen_share_cleanup (env : MediaEnv) (st : SessionState)
    (hterm : env.ended = false) :
    (st.screenSharing = some true → st.video.enabledSend = true →
      (onEndedScreenSharing env st).ops = [.replaceSenderTrack, .renegotiateReq] ∧
      MediaOp.addVideo ∉ (onEndedScreenSharing env st).ops ∧
      (onEndedScreenSharing env st).state.video.enabledSend = true) ∧
    (st.screenSharing = some false →
      onEndedScreenSharing env st = stopSendingVideo env { st with screenSharing := none }) := by
  constructor
  · intro h1 h2
    refine ⟨?_, ?_, ?_⟩ <;> simp [onEndedScreenSharing, hterm, h1, h2, renegotiateCall]
  · intro h1
    simp [onEndedScreenSharing, hterm, h1]

/-- Witness for c4_screen_share_cleanup: a call that was sending camera
video, then started screen sharing (screenSharing record with hadSendVideo
true, enabled-send true), gets its camera track restored via replace and
one renegotiation when the capture ends, with enabled-send still true. -/
theorem c4_screen_share_cleanup_witness :
    (onEndedScreenSharing ⟨true, true, true, true, true, false, fun _ => true⟩
        { initialSessionState with
            screenSharing := some true, video := ⟨true, true, true, true⟩ }).ops
      = [.replaceSenderTrack, .renegotiateReq] ∧
    (onEndedScreenSharing ⟨true, true, true, true, true, false, fun _ => true⟩
        { initialSessionState with
            screenSharing := some true, video := ⟨true, true, true, true⟩ }).state.video.enabledSend
      = true ∧
    onEndedScreenSharing ⟨true, true, true, true, true, false, fun _ => true⟩
        { initialSessionState with screenSharing := some false }
      = stopSendingVideo ⟨true, true, true, true, true, false, fun _ => true⟩
          initialSessionState := by
  have h1 := (c4_screen_share_cleanup ⟨true, true, true, true, true, false, fun _ => true⟩
    { initialSessionState with
        screenSharing := some true, video := ⟨true, true, true, true⟩ } rfl).1 rfl rfl
  have h2 := (c4_screen_share_cleanup ⟨true, true, true, true, true, false, fun _ => true⟩
    { initialSessionState with screenSharing := some false } rfl).2 rfl
  exact ⟨h1.1, h1.2.2, h2⟩

end ACWebRTC
